import Mathlib

/-!
Shallow embedding of the AIPostcard frontend (Next.js postcard search UI):
the extracted-text tri-state classifier and its renderer, the search-result
fetch state machine, the suggestion fallback, the filter panel, pagination
links and the search page's parameter parsing.  JavaScript strings are
`String`, JS `null`/`undefined` are modelled with explicit constructors or
`Option`, JS numbers that the code only ever treats as integers are `Int`
(or `Nat` for counts), and prices are exact rationals.  Fallible remote
calls are modelled by an explicit outcome value fed to the handler.
-/

namespace AIPostcard

/-- JS value of type `string | null | undefined`, the input type of
`standardizeTextDisplay` in `SearchResults`. -/
inductive TextInput
  | undef
  | null
  | str (s : String)
deriving DecidableEq

/-- `sub.isPrefixOf l`-based substring test: JS `hay.includes(sub)` on char
lists. -/
def containsSub (sub : List Char) : List Char → Bool
  | [] => sub.isEmpty
  | c :: rest => sub.isPrefixOf (c :: rest) || containsSub sub rest

/-- JS `String.prototype.toLowerCase` on the ASCII range: lowercases each
character (structurally, so that it evaluates by kernel reduction). -/
def jsToLowerCase (s : String) : String :=
  String.mk (s.data.map Char.toLower)

/-- The eleven phrases `standardizeTextDisplay` treats as "no text found". -/
def noTextPhrases : List String :=
  ["unable to extract",
   "can't extract",
   "sorry",
   "couldn't",
   "no text",
   "not visible",
   "not detected",
   "no text found",
   "no_text_found",
   "i don't see any",
   "cannot see"]

/-- `standardizeTextDisplay` from `SearchResults`: classifies the extracted
text of an image into `"extracting"`, `"none"`, or the text itself. -/
def standardizeTextDisplay : TextInput → String
  | .undef => "extracting"
  | .null => "none"
  | .str text =>
      if text = "" then "none"
      else if (noTextPhrases.any fun phrase =>
          containsSub phrase.data (jsToLowerCase text).data) = true then "none"
      else if text.length < 5 then "none"
      else text

/-- The spec's tri-state classification, written from the (amended) spec's
words: `"extracting"` for undefined, `"none"` for null, empty, a no-text
phrase, or fewer than 5 characters, and otherwise the input unchanged. -/
def specTextDisplay : TextInput → String
  | .undef => "extracting"
  | .null => "none"
  | .str text =>
      if text = "" ∨ (noTextPhrases.any fun phrase =>
          containsSub phrase.data (jsToLowerCase text).data) = true ∨
          text.length < 5
      then "none"
      else text

/-- C1 (counterexample): the claim's "returns `"extracting"` exactly when the
input is undefined" fails: the defined input string `"extracting"` passes
every no-text check and is returned unchanged, so the output is
`"extracting"` for an input that is not undefined. -/
theorem standardizeTextDisplay_extracting_not_only_undef :
    standardizeTextDisplay (TextInput.str "extracting") = "extracting" ∧
      TextInput.str "extracting" ≠ TextInput.undef := by
  constructor
  · decide
  · decide

/-- C1 (amended): `standardizeTextDisplay` agrees everywhere with the spec's
tri-state classification (undefined ↦ `"extracting"`; null, empty, a listed
no-text phrase in the lowercased input, or length below 5 ↦ `"none"`;
otherwise the input unchanged), and the only inputs mapped to
`"extracting"` are undefined and the literal string `"extracting"`
itself (returned unchanged). -/
theorem standardizeTextDisplay_spec (x : TextInput) :
    standardizeTextDisplay x = specTextDisplay x ∧
      (standardizeTextDisplay x = "extracting" ↔
        (x = TextInput.undef ∨ x = TextInput.str "extracting")) := by
  constructor
  · cases x with
    | undef => rfl
    | null => rfl
    | str s =>
      simp only [standardizeTextDisplay, specTextDisplay]
      by_cases h1 : s = ""
      · simp [h1]
      · by_cases h2 : (noTextPhrases.any fun phrase =>
            containsSub phrase.data (jsToLowerCase s).data) = true
        · simp [h1, h2]
        · by_cases h3 : s.length < 5
          · simp [h1, h2, h3]
          · simp [h1, h2, h3]
  · constructor
    · intro h
      cases x with
      | undef => exact Or.inl rfl
      | null => exact absurd h (by decide)
      | str s =>
        simp only [standardizeTextDisplay] at h
        split_ifs at h with h1 h2 h3
        · exact absurd h (by decide)
        · exact absurd h (by decide)
        · exact absurd h (by decide)
        · exact Or.inr (by rw [h])
    · rintro (rfl | rfl)
      · rfl
      · decide

/-- The extraction wait bound in `SearchResults`: the timer that flips
`extractionTimeout`, in milliseconds. -/
def extractionTimeoutMs : Nat := 10000

/-- What the extracted-text panel renders for one image. -/
inductive Rendered
  | extractingIndicator
  | noTextDetected
  | text (s : String)
deriving DecidableEq

/-- `renderExtractedText` from `SearchResults`: renders a text status given
the current `extractionTimeout` state. -/
def renderExtractedText (extractionTimeout : Bool) (textStatus : String) :
    Rendered :=
  if textStatus = "extracting" ∧ ¬extractionTimeout then
    .extractingIndicator
  else if textStatus = "none" ∨ (textStatus = "extracting" ∧ extractionTimeout)
  then
    .noTextDetected
  else
    .text textStatus

/-- C2: the extraction wait is bounded by a 10000 ms timer; while the status
is `"extracting"` and the timeout has not fired the extracting indicator is
rendered, once it has fired "No text detected" is rendered instead; status
`"none"` always renders "No text detected", and any other status renders
the text itself. -/
theorem renderExtractedText_spec (t : Bool) (s : String)
    (h1 : s ≠ "extracting") (h2 : s ≠ "none") :
    extractionTimeoutMs = 10000 ∧
      renderExtractedText false "extracting" = Rendered.extractingIndicator ∧
      renderExtractedText true "extracting" = Rendered.noTextDetected ∧
      renderExtractedText t "none" = Rendered.noTextDetected ∧
      renderExtractedText t s = Rendered.text s := by
  refine ⟨rfl, rfl, rfl, ?_, ?_⟩
  · cases t <;> rfl
  · simp [renderExtractedText, h1, h2]

/-- C2 (witness): `renderExtractedText_spec` evaluated at the status
`"Paris 1920"` with the timeout not yet fired. -/
theorem renderExtractedText_spec_witness :
    extractionTimeoutMs = 10000 ∧
      renderExtractedText false "extracting" = Rendered.extractingIndicator ∧
      renderExtractedText true "extracting" = Rendered.noTextDetected ∧
      renderExtractedText false "none" = Rendered.noTextDetected ∧
      renderExtractedText false "Paris 1920" = Rendered.text "Paris 1920" :=
  renderExtractedText_spec false "Paris 1920" (by decide) (by decide)

/-- The normalized result record (the `SearchResult` interface): optional
fields are `Option`, the price is an exact rational. -/
structure SearchResult where
  source : String
  title : String
  image_url : String
  additional_images : Option (List String)
  price : ℚ
  currency : String
  link : String
  description : Option String
  date : Option String
  location : Option String
  affiliate_link : Option String
  image_text : Option String
  additional_image_text : Option (List String)
deriving DecidableEq

/-- The `/api/search` response body fields that `fetchResults` reads:
`none` models an absent or `null`/`undefined` JSON field. -/
structure ResponseBody where
  results : Option (List SearchResult)
  total : Option Nat
  enhanced_query : Option String
deriving DecidableEq

/-- Outcome of the search request: the fetch threw, or an HTTP response
arrived with the given `ok` flag and body. -/
inductive FetchOutcome
  | fetchError
  | httpResponse (ok : Bool) (body : ResponseBody)
deriving DecidableEq

/-- The `SearchResults` component state touched by `fetchResults`. -/
structure ResultsState where
  results : List SearchResult
  total : Nat
  error : Option String
  enhancedQuery : Option String
  loading : Bool
deriving DecidableEq

/-- The error message `fetchResults` sets on any failure. -/
def searchErrorMessage : String :=
  "Failed to fetch search results. Please try again later."

/-- JS `value || null` on a `string | null | undefined` value: the empty
string is falsy and becomes `null`. -/
def jsOrNull : Option String → Option String
  | some s => if s = "" then none else some s
  | none => none

/-- `fetchResults` from `SearchResults` as a state transition: given the
previous component state, the query, and the request outcome, it returns
the new state and whether a request was issued.  An empty query returns
immediately (`if (!query) return`).  On success the state takes
`data.results || []`, `data.total || 0` and `data.enhanced_query || null`
and the error is cleared; on a non-OK response or a thrown fetch the error
message is set and results/total are emptied (the enhanced query keeps its
previous value); `loading` ends `false` either way. -/
def fetchResults (prev : ResultsState) (query : String)
    (outcome : FetchOutcome) : ResultsState × Bool :=
  if query = "" then (prev, false)
  else
    match outcome with
    | .httpResponse true body =>
        ({ results := body.results.getD [],
           total := body.total.getD 0,
           error := none,
           enhancedQuery := jsOrNull body.enhanced_query,
           loading := false }, true)
    | .httpResponse false _ =>
        ({ prev with
           error := some searchErrorMessage,
           results := [],
           total := 0,
           loading := false }, true)
    | .fetchError =>
        ({ prev with
           error := some searchErrorMessage,
           results := [],
           total := 0,
           loading := false }, true)

/-- C3: for every nonempty query, a thrown fetch or a non-OK response puts
the component in its error state — the error message is set, the result
list becomes empty and the total becomes zero — and every successful
response clears the error state. -/
theorem fetchResults_error_state (prev : ResultsState) (q : String)
    (body body' : ResponseBody) (h : q ≠ "") :
    ((fetchResults prev q .fetchError).1.error = some searchErrorMessage ∧
      (fetchResults prev q .fetchError).1.results = [] ∧
      (fetchResults prev q .fetchError).1.total = 0) ∧
    ((fetchResults prev q (.httpResponse false body')).1.error =
        some searchErrorMessage ∧
      (fetchResults prev q (.httpResponse false body')).1.results = [] ∧
      (fetchResults prev q (.httpResponse false body')).1.total = 0) ∧
    (fetchResults prev q (.httpResponse true body)).1.error = none := by
  simp [fetchResults, h]

/-- C3 (witness): `fetchResults_error_state` at the query `"paris"` with a
concrete previous state and empty bodies. -/
theorem fetchResults_error_state_witness :
    ((fetchResults ⟨[], 0, none, none, true⟩ "paris" .fetchError).1.error =
        some searchErrorMessage ∧
      (fetchResults ⟨[], 0, none, none, true⟩ "paris"
        .fetchError).1.results = [] ∧
      (fetchResults ⟨[], 0, none, none, true⟩ "paris"
        .fetchError).1.total = 0) ∧
    ((fetchResults ⟨[], 0, none, none, true⟩ "paris"
        (.httpResponse false ⟨none, none, none⟩)).1.error =
        some searchErrorMessage ∧
      (fetchResults ⟨[], 0, none, none, true⟩ "paris"
        (.httpResponse false ⟨none, none, none⟩)).1.results = [] ∧
      (fetchResults ⟨[], 0, none, none, true⟩ "paris"
        (.httpResponse false ⟨none, none, none⟩)).1.total = 0) ∧
    (fetchResults ⟨[], 0, none, none, true⟩ "paris"
      (.httpResponse true ⟨none, none, none⟩)).1.error = none :=
  fetchResults_error_state ⟨[], 0, none, none, true⟩ "paris"
    ⟨none, none, none⟩ ⟨none, none, none⟩ (by decide)

/-- C4: on every successful response the new state is built from exactly the
three body fields — `results`, `total`, `enhanced_query` — with the error
cleared and loading finished; an absent `results` defaults to the empty
list, an absent or zero `total` to zero, and an absent or empty
`enhanced_query` to null. -/
theorem fetchResults_success_state (prev : ResultsState) (q : String)
    (body : ResponseBody) (h : q ≠ "") :
    (fetchResults prev q (.httpResponse true body)).1 =
      { results := body.results.getD [],
        total := body.total.getD 0,
        error := none,
        enhancedQuery := jsOrNull body.enhanced_query,
        loading := false } ∧
    (fetchResults prev q
        (.httpResponse true ⟨none, none, none⟩)).1.results = [] ∧
    (fetchResults prev q (.httpResponse true ⟨none, none, none⟩)).1.total = 0 ∧
    (fetchResults prev q
        (.httpResponse true ⟨none, none, none⟩)).1.enhancedQuery = none ∧
    (fetchResults prev q
        (.httpResponse true ⟨none, none, some ""⟩)).1.enhancedQuery = none := by
  simp [fetchResults, h, jsOrNull]

/-- C4 (witness): `fetchResults_success_state` at the query `"paris"` with a
concrete previous state and a populated body. -/
theorem fetchResults_success_state_witness :
    (fetchResults ⟨[], 0, none, none, true⟩ "paris"
        (.httpResponse true ⟨some [], some 3, some "vintage paris"⟩)).1 =
      { results := (some ([] : List SearchResult)).getD [],
        total := (some 3).getD 0,
        error := none,
        enhancedQuery := jsOrNull (some "vintage paris"),
        loading := false } ∧
    (fetchResults ⟨[], 0, none, none, true⟩ "paris"
        (.httpResponse true ⟨none, none, none⟩)).1.results = [] ∧
    (fetchResults ⟨[], 0, none, none, true⟩ "paris"
        (.httpResponse true ⟨none, none, none⟩)).1.total = 0 ∧
    (fetchResults ⟨[], 0, none, none, true⟩ "paris"
        (.httpResponse true ⟨none, none, none⟩)).1.enhancedQuery = none ∧
    (fetchResults ⟨[], 0, none, none, true⟩ "paris"
        (.httpResponse true ⟨none, none, some ""⟩)).1.enhancedQuery = none :=
  fetchResults_success_state ⟨[], 0, none, none, true⟩ "paris"
    ⟨some [], some 3, some "vintage paris"⟩ (by decide)

/-- Modelled from the spec: the Query Enhancer runs in the backend, which is
not part of this repository's files; per the spec it sends the raw user
query to an external language-model service and, on failure (`none`), falls
back to the original query. -/
def enhanceQuery (original : String) (providerResult : Option String) :
    String :=
  match providerResult with
  | some enhanced => enhanced
  | none => original

/-- The "Search enhanced to" banner condition in `SearchResults`:
`enhancedQuery && enhancedQuery !== query`. -/
def showEnhancedBanner (enhancedQuery : Option String) (query : String) :
    Bool :=
  match enhancedQuery with
  | none => false
  | some e => !(e == "") && !(e == query)

/-- C6: when enhancement fails the query used is the original user query,
and after a successful search response the banner is shown if and only if
the state's enhanced query is present (non-null) and differs from the
user's original query. -/
theorem showEnhancedBanner_spec (prev : ResultsState) (q orig : String)
    (body : ResponseBody) (h : q ≠ "") :
    enhanceQuery orig none = orig ∧
      (showEnhancedBanner
          ((fetchResults prev q (.httpResponse true body)).1.enhancedQuery) q
            = true ↔
        ∃ e, (fetchResults prev q
            (.httpResponse true body)).1.enhancedQuery = some e ∧ e ≠ q) := by
  refine ⟨rfl, ?_⟩
  simp only [fetchResults, h, if_neg h]
  cases hb : body.enhanced_query with
  | none => simp [jsOrNull, showEnhancedBanner, hb]
  | some e =>
    by_cases he : e = ""
    · simp [jsOrNull, showEnhancedBanner, hb, he]
    · simp [jsOrNull, showEnhancedBanner, hb, he]

/-- C6 (witness): `showEnhancedBanner_spec` at the query `"paris"` with a
response whose enhanced query is `"vintage paris"`. -/
theorem showEnhancedBanner_spec_witness :
    enhanceQuery "paris" none = "paris" ∧
      (showEnhancedBanner
          ((fetchResults ⟨[], 0, none, none, true⟩ "paris"
            (.httpResponse true
              ⟨none, none, some "vintage paris"⟩)).1.enhancedQuery) "paris"
            = true ↔
        ∃ e, (fetchResults ⟨[], 0, none, none, true⟩ "paris"
            (.httpResponse true
              ⟨none, none, some "vintage paris"⟩)).1.enhancedQuery = some e ∧
          e ≠ "paris") :=
  showEnhancedBanner_spec ⟨[], 0, none, none, true⟩ "paris" "paris"
    ⟨none, none, some "vintage paris"⟩ (by decide)

/-- Outcome of the `/api/suggest` request: the fetch threw, or an HTTP
response arrived with the given `ok` flag and optional `suggestions`
field. -/
inductive SuggestOutcome
  | fetchError
  | httpResponse (ok : Bool) (suggestions : Option (List String))
deriving DecidableEq

/-- The `SearchForm` state after one run of `fetchSuggestions`: the
suggestion list and whether a request was issued. -/
structure SuggestStep where
  suggestions : List String
  requestIssued : Bool
deriving DecidableEq

/-- The five mock suggestions `generateMockSuggestions` builds from the
query. -/
def mockSuggestionList (query : String) : List String :=
  [query ++ " vintage postcards",
   query ++ " antique postcards",
   query ++ " 1950s postcards",
   query ++ " black and white postcards",
   query ++ " color postcards"]

/-- `generateMockSuggestions` from `SearchForm`: returns without changing
the current suggestions when the query is shorter than 2 characters, and
otherwise sets the five mock suggestions. -/
def generateMockSuggestions (query : String) (current : List String) :
    List String :=
  if query.length < 2 then current else mockSuggestionList query

/-- `fetchSuggestions` from `SearchForm`: a query shorter than 2 characters
clears the suggestions and issues no request; otherwise a request is
issued, an OK response sets `data.suggestions || []`, and a non-OK response
or a thrown fetch clears the suggestions and then falls back to the mock
suggestions. -/
def fetchSuggestions (query : String) (outcome : SuggestOutcome) :
    SuggestStep :=
  if query.length < 2 then ⟨[], false⟩
  else
    match outcome with
    | .httpResponse true body => ⟨body.getD [], true⟩
    | .httpResponse false _ => ⟨generateMockSuggestions query [], true⟩
    | .fetchError => ⟨generateMockSuggestions query [], true⟩

/-- C5: for every query of length at least 2, a thrown fetch or a non-OK
response makes the form fall back to exactly five locally generated
suggestions, each an extension of the query (the query is its prefix); for
every query of length less than 2 the suggestion list is set to empty and
no request is issued. -/
theorem fetchSuggestions_spec (q q' : String) (b : Option (List String))
    (o : SuggestOutcome) (h2 : 2 ≤ q.length) (h1 : q'.length < 2) :
    fetchSuggestions q .fetchError = ⟨mockSuggestionList q, true⟩ ∧
      fetchSuggestions q (.httpResponse false b) =
        ⟨mockSuggestionList q, true⟩ ∧
      (mockSuggestionList q).length = 5 ∧
      (∀ s ∈ mockSuggestionList q, ∃ t, s = q ++ t) ∧
      fetchSuggestions q' o = ⟨[], false⟩ := by
  have hq : ¬q.length < 2 := by omega
  refine ⟨?_, ?_, rfl, ?_, ?_⟩
  · simp [fetchSuggestions, generateMockSuggestions, hq]
  · simp [fetchSuggestions, generateMockSuggestions, hq]
  · intro s hs
    simp only [mockSuggestionList, List.mem_cons, List.not_mem_nil,
      or_false] at hs
    rcases hs with h | h | h | h | h <;> exact ⟨_, h⟩
  · simp [fetchSuggestions, h1]

/-- C5 (witness): `fetchSuggestions_spec` at the queries `"pa"` and `"p"`
with a thrown fetch. -/
theorem fetchSuggestions_spec_witness :
    fetchSuggestions "pa" .fetchError = ⟨mockSuggestionList "pa", true⟩ ∧
      fetchSuggestions "pa" (.httpResponse false none) =
        ⟨mockSuggestionList "pa", true⟩ ∧
      (mockSuggestionList "pa").length = 5 ∧
      (∀ s ∈ mockSuggestionList "pa", ∃ t, s = "pa" ++ t) ∧
      fetchSuggestions "p" .fetchError = ⟨[], false⟩ :=
  fetchSuggestions_spec "pa" "p" none .fetchError (by decide) (by decide)

/-- The characters `encodeURIComponent` leaves unescaped besides ASCII
letters and digits. -/
def unreservedMarks : List Char :=
  ['-', '_', '.', '!', '~', '*', Char.ofNat 39, '(', ')']

/-- Whether `encodeURIComponent` leaves the character unescaped. -/
def isUnreservedChar (c : Char) : Bool :=
  c.isAlphanum || unreservedMarks.contains c

/-- An uppercase hexadecimal digit. -/
def hexDigit (n : Nat) : Char :=
  if n < 10 then Char.ofNat (48 + n) else Char.ofNat (55 + n)

/-- Percent-encoding of one byte value. -/
def percentEncodeByte (b : Nat) : List Char :=
  ['%', hexDigit (b / 16 % 16), hexDigit (b % 16)]

/-- The UTF-8 bytes of a character, as natural numbers below 256. -/
def utf8Bytes (c : Char) : List Nat :=
  let n := c.toNat
  if n < 128 then [n]
  else if n < 2048 then [192 + n / 64, 128 + n % 64]
  else if n < 65536 then
    [224 + n / 4096, 128 + n / 64 % 64, 128 + n % 64]
  else
    [240 + n / 262144, 128 + n / 4096 % 64, 128 + n / 64 % 64, 128 + n % 64]

/-- JS `encodeURIComponent`: unreserved characters pass through, every other
character is replaced by the percent-encoding of its UTF-8 bytes. -/
def encodeURIComponent (s : String) : String :=
  String.mk (s.data.flatMap fun c =>
    if isUnreservedChar c then [c]
    else (utf8Bytes c).flatMap percentEncodeByte)

/-- No character produced by `encodeURIComponent` is a query-string
delimiter (`&`, `=` or `?`). -/
theorem encodeURIComponent_no_delimiters (s : String) :
    ∀ c ∈ (encodeURIComponent s).data, c ≠ '&' ∧ c ≠ '=' ∧ c ≠ '?' := by
  intro c hc
  have hhex : ∀ m : Nat, m < 16 →
      hexDigit m ≠ '&' ∧ hexDigit m ≠ '=' ∧ hexDigit m ≠ '?' := by decide
  simp only [encodeURIComponent, List.mem_flatMap] at hc
  obtain ⟨a, -, ha⟩ := hc
  by_cases hu : isUnreservedChar a
  · rw [if_pos hu] at ha
    simp only [List.mem_singleton] at ha
    subst ha
    refine ⟨?_, ?_, ?_⟩ <;> rintro rfl <;> exact absurd hu (by decide)
  · rw [if_neg hu] at ha
    simp only [List.mem_flatMap] at ha
    obtain ⟨b, -, hb⟩ := ha
    simp only [percentEncodeByte, List.mem_cons, List.not_mem_nil,
      or_false] at hb
    rcases hb with rfl | rfl | rfl
    · decide
    · exact hhex _ (Nat.mod_lt _ (by decide))
    · exact hhex _ (Nat.mod_lt _ (by decide))

/-- JS `String.prototype.trim`: whitespace is removed from both ends
(structurally over the character list). -/
def jsTrim (s : String) : String :=
  String.mk
    (((s.data.dropWhile Char.isWhitespace).reverse.dropWhile
      Char.isWhitespace).reverse)

/-- Dropping a satisfying prefix leaves a list that is all-`p` exactly when
the whole list was. -/
theorem dropWhile_all_iff (p : Char → Bool) (l : List Char) :
    (∀ x ∈ l.dropWhile p, p x) ↔ ∀ x ∈ l, p x := by
  constructor
  · intro h x hx
    rw [← List.takeWhile_append_dropWhile p l, List.mem_append] at hx
    rcases hx with hx | hx
    · exact List.mem_takeWhile_imp hx
    · exact h x hx
  · intro h x hx
    refine h x ?_
    rw [← List.takeWhile_append_dropWhile p l, List.mem_append]
    exact Or.inr hx

/-- `jsTrim` gives the empty string exactly when every character of the
input is whitespace. -/
theorem jsTrim_eq_empty_iff (s : String) :
    jsTrim s = "" ↔ ∀ c ∈ s.data, c.isWhitespace := by
  have hmk : ∀ l : List Char, String.mk l = "" ↔ l = [] := by
    intro l
    constructor
    · intro h
      exact congrArg String.data h
    · rintro rfl
      rfl
  rw [jsTrim, hmk, List.reverse_eq_nil_iff, List.dropWhile_eq_nil_iff]
  constructor
  · intro h c hc
    have h' : ∀ x ∈ s.data.dropWhile Char.isWhitespace, x.isWhitespace := by
      intro x hx
      exact h x (List.mem_reverse.mpr hx)
    exact (dropWhile_all_iff Char.isWhitespace s.data).mp h' c hc
  · intro h c hc
    refine (dropWhile_all_iff Char.isWhitespace s.data).mpr h c ?_
    exact List.mem_reverse.mp hc

/-- `handleSubmit` from `SearchForm`: a trimmed-empty query does nothing
(`none`); otherwise the navigation target uses the trimmed, URL-encoded
query. -/
def handleSubmit (query : String) : Option String :=
  if jsTrim query = "" then none
  else some ("/search?query=" ++ encodeURIComponent (jsTrim query))

/-- C8: submitting with a query that is empty or all whitespace performs no
navigation and changes nothing, and every other query navigates to
`/search?query=` followed by the trimmed, URL-encoded query. -/
theorem handleSubmit_spec (q : String) (h : jsTrim q ≠ "") :
    (∀ q0, handleSubmit q0 = none ↔ ∀ c ∈ q0.data, c.isWhitespace) ∧
      handleSubmit q =
        some ("/search?query=" ++ encodeURIComponent (jsTrim q)) := by
  constructor
  · intro q0
    rw [← jsTrim_eq_empty_iff]
    constructor
    · intro h0
      by_contra hne
      simp [handleSubmit, hne] at h0
    · intro h0
      simp [handleSubmit, h0]
  · simp [handleSubmit, h]

/-- C8 (witness): `handleSubmit_spec` at the query `" old paris "`, whose
trimmed form is `"old paris"`. -/
theorem handleSubmit_spec_witness :
    (∀ q0, handleSubmit q0 = none ↔ ∀ c ∈ q0.data, c.isWhitespace) ∧
      handleSubmit " old paris " =
        some ("/search?query=" ++ encodeURIComponent (jsTrim " old paris ")) :=
  handleSubmit_spec " old paris " (by decide)

/-- The `FilterPanel` local state: each field holds the raw input string,
`sortByValue` the selected sort order. -/
structure FilterState where
  yearMinValue : String
  yearMaxValue : String
  locationValue : String
  priceMinValue : String
  priceMaxValue : String
  sortByValue : String
deriving DecidableEq

/-- `resetFilters` from `FilterPanel`: clears every filter field, returns
the sort order to `"relevance"`, and navigates to the URL carrying only the
query. -/
def resetFilters (query : String) : FilterState × String :=
  (⟨"", "", "", "", "", "relevance"⟩,
   "/search?query=" ++ encodeURIComponent query)

/-- C9: resetting filters clears every filter field, returns the sort order
to `"relevance"`, and navigates to a URL built from the unchanged query
whose query string holds the query parameter and no other parameter (no
`&` at all and exactly the one `=` of `query=`). -/
theorem resetFilters_spec (q : String) :
    (resetFilters q).1 = ⟨"", "", "", "", "", "relevance"⟩ ∧
      (resetFilters q).2 = "/search?query=" ++ encodeURIComponent q ∧
      ((resetFilters q).2).data.count '&' = 0 ∧
      ((resetFilters q).2).data.count '=' = 1 := by
  have hdata : ((resetFilters q).2).data =
      "/search?query=".data ++ (encodeURIComponent q).data := by
    simp [resetFilters, String.data_append]
  have henc : ∀ c ∈ (encodeURIComponent q).data, c ≠ '&' ∧ c ≠ '=' ∧ c ≠ '?' :=
    encodeURIComponent_no_delimiters q
  refine ⟨rfl, rfl, ?_, ?_⟩
  · rw [hdata, List.count_append]
    have : (encodeURIComponent q).data.count '&' = 0 :=
      List.count_eq_zero.mpr fun hmem => (henc _ hmem).1 rfl
    rw [this]
    decide
  · rw [hdata, List.count_append]
    have : (encodeURIComponent q).data.count '=' = 0 :=
      List.count_eq_zero.mpr fun hmem => (henc _ hmem).2.1 rfl
    rw [this]
    decide

/-- The `SearchResults` component props: the query, the 1-based page, the
optional filters and the sort order. -/
structure ResultsProps where
  query : String
  page : Int
  yearMin : Option Int
  yearMax : Option Int
  location : Option String
  priceMin : Option ℚ
  priceMax : Option ℚ
  sortBy : String
deriving DecidableEq

/-- One interpolated `${v ? `&name=${v}` : ''}` segment for a numeric
parameter: omitted when the value is absent or zero (JS falsiness). -/
def numSegment {α : Type} [ToString α] [Zero α] [DecidableEq α]
    (name : String) (v : Option α) : String :=
  match v with
  | some n => if n = 0 then "" else "&" ++ name ++ "=" ++ toString n
  | none => ""

/-- The filter-and-sort tail shared by the Previous and Next pagination
hrefs in `SearchResults` (everything after the page number). -/
def filterSuffix (p : ResultsProps) : String :=
  numSegment "year_min" p.yearMin ++ numSegment "year_max" p.yearMax ++
    (match p.location with
     | some l => if l = "" then "" else "&location=" ++ encodeURIComponent l
     | none => "") ++
    numSegment "price_min" p.priceMin ++ numSegment "price_max" p.priceMax ++
    (if p.sortBy = "" then "" else "&sort_by=" ++ p.sortBy)

/-- The pagination href template of `SearchResults`, at a given page
number. -/
def searchPageHref (p : ResultsProps) (pageNum : Int) : String :=
  "/search?query=" ++ encodeURIComponent p.query ++ "&page=" ++
    toString pageNum ++ filterSuffix p

/-- A pagination link as rendered: Previous or Next, with its href. -/
inductive PageLink
  | prev (href : String)
  | next (href : String)
deriving DecidableEq

/-- The pagination links `SearchResults` renders: nothing when the total is
zero; otherwise Previous (page − 1) when the page is above 1 and Next
(page + 1) when the current page holds at least 20 results. -/
def paginationLinks (p : ResultsProps) (results : List SearchResult)
    (total : Nat) : List PageLink :=
  if 0 < total then
    (if 1 < p.page then [.prev (searchPageHref p (p.page - 1))] else []) ++
      (if 20 ≤ results.length then [.next (searchPageHref p (p.page + 1))]
       else [])
  else []

/-- C7: with a positive total, a Previous link is rendered iff the page
number exceeds 1 and a Next link iff the page holds at least 20 results,
and each link's href is the common template — the query, then the page
number changed by exactly one, then the same filter-and-sort tail — so both
hrefs preserve the query, every active filter and the sort order. -/
theorem paginationLinks_spec (p : ResultsProps) (results : List SearchResult)
    (total : Nat) (h : 0 < total) :
    ((∃ s, PageLink.prev s ∈ paginationLinks p results total) ↔
        1 < p.page) ∧
      ((∃ s, PageLink.next s ∈ paginationLinks p results total) ↔
        20 ≤ results.length) ∧
      (∀ s, PageLink.prev s ∈ paginationLinks p results total →
        s = "/search?query=" ++ encodeURIComponent p.query ++ "&page=" ++
          toString (p.page - 1) ++ filterSuffix p) ∧
      (∀ s, PageLink.next s ∈ paginationLinks p results total →
        s = "/search?query=" ++ encodeURIComponent p.query ++ "&page=" ++
          toString (p.page + 1) ++ filterSuffix p) := by
  by_cases hp : 1 < p.page <;> by_cases hn : 20 ≤ results.length <;>
    simp [paginationLinks, searchPageHref, h, hp, hn]

/-- C7 (witness): `paginationLinks_spec` on page 3 of a one-result total
with an empty current page. -/
theorem paginationLinks_spec_witness :
    ((∃ s, PageLink.prev s ∈
        paginationLinks ⟨"paris", 3, none, none, none, none, none,
          "relevance"⟩ [] 1) ↔
        (1 : Int) < 3) ∧
      ((∃ s, PageLink.next s ∈
        paginationLinks ⟨"paris", 3, none, none, none, none, none,
          "relevance"⟩ [] 1) ↔
        20 ≤ ([] : List SearchResult).length) ∧
      (∀ s, PageLink.prev s ∈
        paginationLinks ⟨"paris", 3, none, none, none, none, none,
          "relevance"⟩ [] 1 →
        s = "/search?query=" ++ encodeURIComponent "paris" ++ "&page=" ++
          toString ((3 : Int) - 1) ++
          filterSuffix ⟨"paris", 3, none, none, none, none, none,
            "relevance"⟩) ∧
      (∀ s, PageLink.next s ∈
        paginationLinks ⟨"paris", 3, none, none, none, none, none,
          "relevance"⟩ [] 1 →
        s = "/search?query=" ++ encodeURIComponent "paris" ++ "&page=" ++
          toString ((3 : Int) + 1) ++
          filterSuffix ⟨"paris", 3, none, none, none, none, none,
            "relevance"⟩) :=
  paginationLinks_spec ⟨"paris", 3, none, none, none, none, none,
    "relevance"⟩ [] 1 (by decide)

/-- A Next.js `searchParams` entry: a string, an array of strings, or
absent. -/
inductive ParamValue
  | str (s : String)
  | strs (l : List String)
  | undef
deriving DecidableEq

/-- The raw `searchParams` of the search page. -/
structure RawSearchParams where
  query : ParamValue
  page : ParamValue
  year_min : ParamValue
  year_max : ParamValue
  location : ParamValue
  price_min : ParamValue
  price_max : ParamValue
  sort_by : ParamValue
deriving DecidableEq

/-- Accumulates the value of a run of leading decimal digits. -/
def parseDigits : List Char → Nat → Nat
  | [], acc => acc
  | c :: cs, acc =>
      if c.isDigit then parseDigits cs (acc * 10 + (c.toNat - 48)) else acc

/-- Whether the list starts with a decimal digit. -/
def hasLeadingDigit : List Char → Bool
  | [] => false
  | c :: _ => c.isDigit

/-- JS `parseInt` with no radix argument, on base-10 input: leading
whitespace and an optional sign are skipped, the leading digit run is the
value, trailing characters are ignored, and no leading digit means `NaN`
(`none`).  (The hexadecimal `0x` prefix, irrelevant to these pages, is read
as its leading `0`.) -/
def jsParseInt (s : String) : Option Int :=
  match s.data.dropWhile Char.isWhitespace with
  | '-' :: rest =>
      if hasLeadingDigit rest then some (-(parseDigits rest 0 : Int))
      else none
  | '+' :: rest =>
      if hasLeadingDigit rest then some ((parseDigits rest 0 : Int)) else none
  | l => if hasLeadingDigit l then some ((parseDigits l 0 : Int)) else none

/-- The value of an unsigned decimal literal with an optional fraction;
`none` when no digit is present (`NaN`). -/
def parseUnsignedFloat (l : List Char) : Option ℚ :=
  let intPart := l.takeWhile Char.isDigit
  match l.dropWhile Char.isDigit with
  | '.' :: rest =>
      let fracPart := rest.takeWhile Char.isDigit
      if intPart.isEmpty && fracPart.isEmpty then none
      else
        some ((parseDigits intPart 0 : ℚ) +
          (parseDigits fracPart 0 : ℚ) / (10 : ℚ) ^ fracPart.length)
  | _ => if intPart.isEmpty then none else some ((parseDigits intPart 0 : ℚ))

/-- JS `parseFloat` on plain decimal input (exponent notation, irrelevant to
these form-filled parameters, is read up to the `e`): leading whitespace
and an optional sign are skipped and the leading decimal literal is the
value; no digit means `NaN` (`none`). -/
def jsParseFloat (s : String) : Option ℚ :=
  match s.data.dropWhile Char.isWhitespace with
  | '-' :: rest => (parseUnsignedFloat rest).map fun q => -q
  | '+' :: rest => parseUnsignedFloat rest
  | l => parseUnsignedFloat l

/-- The parameters the search page passes down after parsing.  For a
numeric filter, the outer `Option` is `none` when the parameter was absent
(or an array), and the inner `Option` is `none` when parsing gave `NaN`. -/
structure ParsedSearchParams where
  query : String
  page : Option Int
  yearMin : Option (Option Int)
  yearMax : Option (Option Int)
  location : Option String
  priceMin : Option (Option ℚ)
  priceMax : Option (Option ℚ)
  sortBy : String
deriving DecidableEq

/-- The search page's parameter parsing: a string `query` is kept (else
`""`), a string `page` is `parseInt`-ed (else `1`), string filters are
parsed (else absent), and a string `sort_by` is kept (else
`"relevance"`). -/
def parseSearchParams (p : RawSearchParams) : ParsedSearchParams :=
  { query := match p.query with | .str s => s | _ => ""
    page := match p.page with | .str s => jsParseInt s | _ => some 1
    yearMin := match p.year_min with | .str s => some (jsParseInt s) | _ => none
    yearMax := match p.year_max with | .str s => some (jsParseInt s) | _ => none
    location := match p.location with | .str s => some s | _ => none
    priceMin :=
      match p.price_min with | .str s => some (jsParseFloat s) | _ => none
    priceMax :=
      match p.price_max with | .str s => some (jsParseFloat s) | _ => none
    sortBy := match p.sort_by with | .str s => s | _ => "relevance" }

/-- What the search page renders: the prompt screen, or the filter panel
plus results for the parsed parameters. -/
inductive SearchPageView
  | promptScreen
  | resultsView (parsed : ParsedSearchParams)
deriving DecidableEq

/-- The search page render: the results view when the query is nonempty,
the prompt screen otherwise. -/
def searchPageView (p : RawSearchParams) : SearchPageView :=
  let parsed := parseSearchParams p
  if parsed.query = "" then .promptScreen else .resultsView parsed

/-- C10: the page shows the prompt screen exactly when the (defaulted)
query is empty — in particular when the query parameter is absent — the
result fetcher issues no request and changes nothing on an empty query, an
absent page parameter defaults the page to 1, and an absent sort parameter
defaults the sort order to `"relevance"`. -/
theorem searchPage_defaults (p : RawSearchParams) (prev : ResultsState)
    (o : FetchOutcome) :
    (searchPageView p = .promptScreen ↔ (parseSearchParams p).query = "") ∧
      (parseSearchParams { p with query := .undef }).query = "" ∧
      fetchResults prev "" o = (prev, false) ∧
      (parseSearchParams { p with page := .undef }).page = some 1 ∧
      (parseSearchParams { p with sort_by := .undef }).sortBy =
        "relevance" := by
  refine ⟨?_, rfl, rfl, rfl, rfl⟩
  by_cases hq : (parseSearchParams p).query = ""
  · simp [searchPageView, hq]
  · simp [searchPageView, hq]

end AIPostcard
